import Mathlib

/-!
Shallow embedding of `ultraviolet_permissions/generators.py`.

Python records are JSON-like dictionaries; we embed the fragment of Python
values the module manipulates (`None`, strings, dicts, lists) as `Py`.
Dictionary access via `.get` and Python's truthiness, equality, substring
test (`in`), `str.replace` (which replaces ALL occurrences) and
`str.lower` are embedded explicitly.  Fallible evaluation is modelled with
`Except PyErr`, where `PyErr` distinguishes the exception classes the code
can raise (`AttributeError`, `TypeError`, `IndexError`).
-/

/-- Python values reachable in this module: `None`, `str`, `dict`, `list`.
Dictionaries are association lists with unique string keys. -/
inductive Py where
  | none : Py
  | str : String → Py
  | dict : List (String × Py) → Py
  | list : List Py → Py

/-- Exception classes the embedded code can raise. -/
inductive PyErr where
  | attributeError : PyErr
  | typeError : PyErr
  | indexError : PyErr
deriving DecidableEq, Repr

mutual

/-- Python `==` on the embedded values (structural; the code only ever
compares a value against a string literal, where this coincides with
Python equality). -/
def pyEq : Py → Py → Bool
  | .none, .none => true
  | .str a, .str b => a == b
  | .dict a, .dict b => pyFieldsEq a b
  | .list a, .list b => pyElemsEq a b
  | _, _ => false

/-- Pointwise equality of dictionary entries. -/
def pyFieldsEq : List (String × Py) → List (String × Py) → Bool
  | [], [] => true
  | (k, v) :: r, (k2, v2) :: r2 => k == k2 && pyEq v v2 && pyFieldsEq r r2
  | _, _ => false

/-- Pointwise equality of list elements. -/
def pyElemsEq : List Py → List Py → Bool
  | [], [] => true
  | a :: r, b :: r2 => pyEq a b && pyElemsEq r r2
  | _, _ => false

end

/-- Python truthiness: `None`, `""`, `{}` and `[]` are falsy. -/
def pyTruthy : Py → Bool
  | .none => false
  | .str s => !(s == "")
  | .dict kvs => !kvs.isEmpty
  | .list xs => !xs.isEmpty

/-- Python `value.get(key)`: defined on dictionaries (missing key gives
`None`); on `None`, strings and lists there is no `get` attribute, so an
`AttributeError` is raised. -/
def pyGet : Py → String → Except PyErr Py
  | .dict kvs, k => .ok ((kvs.lookup k).getD .none)
  | _, _ => .error .attributeError

/-- Python `value.get(key, default)` with an explicit default. -/
def pyGetD : Py → String → Py → Except PyErr Py
  | .dict kvs, k, d => .ok ((kvs.lookup k).getD d)
  | _, _, _ => .error .attributeError

/-- Python `str.lower` (ASCII case folding suffices for the code's data). -/
def lowerStr (s : String) : String := ⟨s.data.map Char.toLower⟩

/-- Does `pat` occur at the head of the second list? -/
def startsWith : List Char → List Char → Bool
  | [], _ => true
  | _ :: _, [] => false
  | a :: as, b :: bs => a == b && startsWith as bs

/-- Python `pat in s` on strings: substring containment. -/
def charsContains (pat : List Char) : List Char → Bool
  | [] => startsWith pat []
  | c :: rest => startsWith pat (c :: rest) || charsContains pat rest

/-- Python `pat in s` lifted to `String`. -/
def strContains (pat s : String) : Bool := charsContains pat.data s.data

/-- Worker for `pyReplace`: replaces every non-overlapping occurrence of
`pat`, scanning left to right.  The fuel argument is the length of the
remaining text, so it never runs out while `pat` is non-empty. -/
def replChars (pat rep : List Char) : Nat → List Char → List Char
  | _, [] => []
  | 0, s => s
  | fuel + 1, c :: rest =>
    if startsWith pat (c :: rest) then
      rep ++ replChars pat rep fuel (List.drop (pat.length - 1) rest)
    else
      c :: replChars pat rep fuel rest

/-- Python `s.replace(pat, rep)` for a non-empty `pat`: replaces ALL
non-overlapping occurrences, left to right. -/
def pyReplace (s pat rep : String) : String :=
  ⟨replChars pat.data rep.data s.data.length s.data⟩

/-- The markup-stripping step shared by `get_roles` (lines 25-29) and
`ProprietaryRecordPermissions.needs` (lines 60-64): guardedly remove the
literal substrings of an opening and a closing paragraph tag. -/
def stripTags (role : String) : String :=
  let role := if strContains "<p>" role then pyReplace role "<p>" "" else role
  if strContains "</p>" role then pyReplace role "</p>" "" else role

/-- Replace only the FIRST occurrence of `pat` (not a behaviour of the
source; used to formalise the spec's description of the stripping step,
which says only the first occurrence is removed). -/
def replaceFirstChars (pat rep : List Char) : List Char → List Char
  | [] => []
  | c :: rest =>
    if startsWith pat (c :: rest) then rep ++ List.drop (pat.length - 1) rest
    else c :: replaceFirstChars pat rep rest

/-- First-occurrence-only replacement lifted to `String`. -/
def replaceFirst (s pat rep : String) : String :=
  ⟨replaceFirstChars pat.data rep.data s.data⟩

/-- Modelled from the spec: the stripping step as the spec describes it,
removing only the first occurrence of each paragraph tag. -/
def stripTagsFirstOnly (role : String) : String :=
  let role := if strContains "<p>" role then replaceFirst role "<p>" "" else role
  if strContains "</p>" role then replaceFirst role "</p>" "" else role

/-- The `description` value must behave as a string for `"<p>" in role`
and the subsequent `replace`/`lower` calls: `None` raises `TypeError` at
the membership test; a dict or list passes the membership tests (as key or
element membership) but then raises `AttributeError` at `.lower()`. -/
def asRoleStr : Py → Except PyErr String
  | .str s => .ok s
  | .none => .error .typeError
  | _ => .error .attributeError

/-- Body of the `for` loop of `get_roles` (lines 22-31), for one
description entry, parameterised by the stripping step: check
`description.get("type").get("id") == "technical-info"`, strip the markup
from `description.get("description")`, and append it to the accumulator
when its lower-casing equals the requested role. -/
def processEntry (strip : String → String) (user_role : String) (description : Py)
    (roles : List String) : Except PyErr (List String) := do
  let t ← pyGet description "type"
  let tid ← pyGet t "id"
  if pyEq tid (Py.str "technical-info") then do
    let roleV ← pyGet description "description"
    let role ← asRoleStr roleV
    let role := strip role
    if lowerStr role == user_role then .ok (roles ++ [role]) else .ok roles
  else .ok roles

/-- The `for` loop of `get_roles` over all description entries. -/
def getRolesLoop (strip : String → String) (user_role : String) :
    List Py → List String → Except PyErr (List String)
  | [], roles => .ok roles
  | d :: rest, roles => do
    let roles ← processEntry strip user_role d roles
    getRolesLoop strip user_role rest roles

/-- Common shape of `get_roles` (lines 19-32), parameterised by the
stripping step: `record.get("metadata").get("additional_descriptions", [])`
followed by the loop.  Iterating a non-list value faults (`None` is not
iterable: `TypeError`; iterating a str or dict yields strings whose `.get`
raises `AttributeError`). -/
def getRolesWith (strip : String → String) (record : Py) (user_role : String) :
    Except PyErr (List String) := do
  let m ← pyGet record "metadata"
  let ads ← pyGetD m "additional_descriptions" (Py.list [])
  match ads with
  | .list ds => getRolesLoop strip user_role ds []
  | .none => .error .typeError
  | _ => .error .attributeError

/-- Embeds `get_roles` (generators.py lines 19-32). -/
def get_roles (record : Py) (user_role : String) : Except PyErr (List String) :=
  getRolesWith stripTags record user_role

/-- Modelled from the spec: `get_roles` as the spec words it, with the
stripping step removing only the first occurrence of each tag. -/
def get_roles_firstOnly (record : Py) (user_role : String) : Except PyErr (List String) :=
  getRolesWith stripTagsFirstOnly record user_role

/-- Identity claims ("Needs") the module produces. -/
inductive Need where
  | authenticated_user : Need
  | superuser_access : Need
  | any_user : Need
  | roleNeed : String → Need
deriving DecidableEq, Repr

/-- A permission generator, reduced to its `needs` operation (the record
argument's Python default `None` is `Py.none`). -/
structure Generator where
  needs : Py → Except PyErr (List Need)

/-- Embeds `Curator.needs` (lines 159-164): wraps `get_roles` with the
fixed role class `"curator"`, one `RoleNeed` per extracted role. -/
def Curator : Generator :=
  ⟨fun record => do
    let roles ← get_roles record "curator"
    if roles.length == 0 then .ok [] else .ok (roles.map Need.roleNeed)⟩

/-- Embeds `Depositor.needs` (lines 99-104). -/
def Depositor : Generator :=
  ⟨fun record => do
    let roles ← get_roles record "depositor"
    if roles.length == 0 then .ok [] else .ok (roles.map Need.roleNeed)⟩

/-- Body of the `for` loop of `ProprietaryRecordPermissions.needs`
(lines 57-65).  Note two departures from `get_roles`: the WHOLE `type`
value is compared against the string `"technical-info"` (not `type.id`),
and on a match the code returns `[RoleNeed(role.name)]` where `role` is a
`str` — a `str` has no attribute `name`, so this raises `AttributeError`. -/
def proprietaryLoop : List Py → Except PyErr (List Need)
  | [] => .ok []
  | d :: rest => do
    let t ← pyGet d "type"
    if pyEq t (Py.str "technical-info") then do
      let roleV ← pyGet d "description"
      let role ← asRoleStr roleV
      let _stripped := stripTags role
      .error .attributeError
    else proprietaryLoop rest

/-- Embeds `ProprietaryRecordPermissions.needs` (lines 49-66): `None`
record means create, granting `authenticated_user`; otherwise scan the
additional descriptions. -/
def ProprietaryRecordPermissions_needs (record : Py) : Except PyErr (List Need) :=
  match record with
  | .none => .ok [Need.authenticated_user]
  | record => do
    let m ← pyGet record "metadata"
    let ads ← pyGetD m "additional_descriptions" (Py.list [])
    match ads with
    | .list ds => proprietaryLoop ds
    | .none => .error .typeError
    | _ => .error .attributeError

/-- `ProprietaryRecordPermissions` as a generator value. -/
def ProprietaryRecordPermissions : Generator := ⟨ProprietaryRecordPermissions_needs⟩

/-- Embeds `AdminSuperUser.needs` (lines 80-82): unconditionally the
superuser claim. -/
def AdminSuperUser : Generator := ⟨fun _ => .ok [Need.superuser_access]⟩

/-- An identity: the set of claims it provides (`identity.provides`). -/
structure Identity where
  provides : List Need

/-- Search clauses the module returns: an `elasticsearch_dsl.Q(...)` node
or the bare empty list `[]`. -/
inductive QueryClause where
  | q : String → QueryClause
  | emptyList : QueryClause
deriving DecidableEq, Repr

/-- Embeds `AdminSuperUser.query_filter` (lines 84-89): `Q('match_all')`
when the identity provides the superuser claim, the empty list otherwise.
The Python default `identity=None` would raise `AttributeError` at
`identity.provides`. -/
def AdminSuperUser_query_filter (identity : Option Identity) : Except PyErr QueryClause :=
  match identity with
  | Option.none => .error .attributeError
  | some idn =>
    if Need.superuser_access ∈ idn.provides then .ok (.q "match_all")
    else .ok .emptyList

/-- The `IfRestricted` generator's constructor state (lines 179-183). -/
structure IfRestricted where
  field : String
  then_ : List Generator
  else_ : List Generator

/-- The lookup `record.get('access', {}).get(self.field, "restricted")`
(lines 190-193; the leading `record and` is redundant there because the
record is already known truthy). -/
def accessFieldValue (record : Py) (field : String) : Except PyErr Py := do
  let access ← pyGetD record "access" (Py.dict [])
  pyGetD access field (Py.str "restricted")

/-- Embeds `IfRestricted.needs` (lines 185-198): any falsy record returns
`[]`; otherwise compare the access value against `"restricted"` and call
`needs()` — with no record argument, hence `record=None` — on the FIRST
generator of the selected branch list (`then_[0]` / `else_[0]`; an empty
branch list would raise `IndexError`). -/
def IfRestricted.needs (g : IfRestricted) (record : Py) : Except PyErr (List Need) :=
  if pyTruthy record = false then .ok []
  else
    match accessFieldValue record g.field with
    | .error e => .error e
    | .ok v =>
      if pyEq v (Py.str "restricted") then
        match g.then_ with
        | [] => .error .indexError
        | a :: _ => a.needs Py.none
      else
        match g.else_ with
        | [] => .error .indexError
        | b :: _ => b.needs Py.none

/-- A record whose metadata carries exactly the given description entries. -/
def descRecord (ds : List Py) : Py :=
  Py.dict [("metadata", Py.dict [("additional_descriptions", Py.list ds)])]

/-- A well-formed curator entry in the documented shape. -/
def curatorEntry : Py :=
  Py.dict [("type", Py.dict [("id", Py.str "technical-info")]),
           ("description", Py.str "<p>Curator</p>")]

/-- A record with an `access` mapping marking the `record` field restricted
and an empty metadata section. -/
def rec1 : Py :=
  Py.dict [("access", Py.dict [("record", Py.str "restricted")]), ("metadata", Py.dict [])]

/-- A description entry whose `type` is the bare string `"technical-info"`,
the only shape `ProprietaryRecordPermissions.needs` can match. -/
def strTypeEntry : Py :=
  Py.dict [("type", Py.str "technical-info"), ("description", Py.str "<p>Curator</p>")]

/-- A malformed description entry lacking both `type` and `description`. -/
def noTypeEntry : Py := Py.dict []

/-- A technical-info entry lacking its `description` value. -/
def noDescEntry : Py := Py.dict [("type", Py.dict [("id", Py.str "technical-info")])]

/-- A curator entry whose description carries two opening and two closing
paragraph tags. -/
def multiTagEntry : Py :=
  Py.dict [("type", Py.dict [("id", Py.str "technical-info")]),
           ("description", Py.str "<p><p>curator</p></p>")]

/-- A description entry is well formed when its `type` value is a dict and,
if the type id is "technical-info", its `description` value is a string:
exactly the entries `processEntry` handles without fault. -/
def entryOk : Py → Bool
  | .dict kvs =>
    match (kvs.lookup "type").getD .none with
    | .dict tkvs =>
      if pyEq ((tkvs.lookup "id").getD .none) (Py.str "technical-info") then
        match (kvs.lookup "description").getD .none with
        | .str _ => true
        | _ => false
      else true
    | _ => false
  | _ => false

/-- The role strings a single well-formed entry contributes to `get_roles`. -/
def entryContrib (user_role : String) : Py → List String
  | .dict kvs =>
    match (kvs.lookup "type").getD .none with
    | .dict tkvs =>
      if pyEq ((tkvs.lookup "id").getD .none) (Py.str "technical-info") then
        match (kvs.lookup "description").getD .none with
        | .str s => if lowerStr (stripTags s) == user_role then [stripTags s] else []
        | _ => []
      else []
    | _ => []
  | _ => []

/-- On a well-formed entry the loop body succeeds and appends exactly the
entry's contribution. -/
lemma processEntry_ok (u : String) (e : Py) (he : entryOk e = true) (roles : List String) :
    processEntry stripTags u e roles = .ok (roles ++ entryContrib u e) := by
  cases e with
  | none => simp [entryOk] at he
  | str s => simp [entryOk] at he
  | list xs => simp [entryOk] at he
  | dict kvs =>
    cases ht : (kvs.lookup "type").getD .none with
    | dict tkvs =>
      by_cases hid : pyEq ((tkvs.lookup "id").getD .none) (Py.str "technical-info") = true
      · cases hd : (kvs.lookup "description").getD .none with
        | str s =>
          by_cases hm : lowerStr (stripTags s) == u
          · simp [processEntry, pyGet, asRoleStr, entryContrib, ht, hid, hd, hm,
              Bind.bind, Except.bind]
          · simp [processEntry, pyGet, asRoleStr, entryContrib, ht, hid, hd, hm,
              Bind.bind, Except.bind]
        | none => simp [entryOk, ht, hid, hd] at he
        | dict d => simp [entryOk, ht, hid, hd] at he
        | list l => simp [entryOk, ht, hid, hd] at he
      · simp [processEntry, pyGet, entryContrib, ht, hid, Bind.bind, Except.bind]
    | none => simp [entryOk, ht] at he
    | str s => simp [entryOk, ht] at he
    | list l => simp [entryOk, ht] at he

/-- Over a list of well-formed entries the loop succeeds and appends the
concatenation of all contributions, in stored order. -/
lemma getRolesLoop_ok (u : String) (es : List Py) (h : ∀ e ∈ es, entryOk e = true)
    (roles : List String) :
    getRolesLoop stripTags u es roles = .ok (roles ++ (es.map (entryContrib u)).flatten) := by
  induction es generalizing roles with
  | nil => simp [getRolesLoop]
  | cons e rest ih =>
    have he : entryOk e = true := h e (List.mem_cons_self e rest)
    have hrest : ∀ x ∈ rest, entryOk x = true := fun x hx => h x (List.mem_cons_of_mem e hx)
    simp [getRolesLoop, processEntry_ok u e he roles, ih hrest, List.append_assoc,
      Bind.bind, Except.bind, List.flatten]

/-- C1 is false as stated: on `rec1`, whose `access.record` is
`"restricted"`, `IfRestricted` returns the result of calling the first
`then_` generator with NO record argument (so `record=None`), here
`[authenticated_user]` from `ProprietaryRecordPermissions`, while
`A.needs(record)` on the same record is `[]`. -/
theorem C1_counterexample :
    IfRestricted.needs ⟨"record", [ProprietaryRecordPermissions], [AdminSuperUser]⟩ rec1
      = .ok [Need.authenticated_user]
    ∧ ProprietaryRecordPermissions.needs rec1 = .ok []
    ∧ (Except.ok [Need.authenticated_user] : Except PyErr (List Need)) ≠ .ok [] :=
  ⟨rfl, rfl, by simp⟩

/-- C1 as amended: for every truthy record whose access lookup for the
field `"record"` yields a value `v` (defaulting to `"restricted"` when the
key is absent), `IfRestricted("record", then_=[A, ...], else_=[B, ...])`
returns exactly `A.needs(None)` when `v == "restricted"` and exactly
`B.needs(None)` otherwise: the selected branch's FIRST generator is
consulted, but it is invoked without the record. -/
theorem C1_amended (A B : Generator) (ta eb : List Generator) (record v : Py)
    (htr : pyTruthy record = true) (hv : accessFieldValue record "record" = .ok v) :
    IfRestricted.needs ⟨"record", A :: ta, B :: eb⟩ record
      = if pyEq v (Py.str "restricted") then A.needs Py.none else B.needs Py.none := by
  simp only [IfRestricted.needs, htr, hv]
  simp

/-- C1 amended claim, instantiated at the concrete record `rec1`. -/
theorem C1_amended_witness :
    IfRestricted.needs ⟨"record", [AdminSuperUser], [ProprietaryRecordPermissions]⟩ rec1
      = if pyEq (Py.str "restricted") (Py.str "restricted") then AdminSuperUser.needs Py.none
        else ProprietaryRecordPermissions.needs Py.none :=
  C1_amended AdminSuperUser ProprietaryRecordPermissions [] [] rec1 (Py.str "restricted") rfl rfl

/-- C2: the absent-record branch does return the authenticated-user claim,
but the technical-info branch can never return a role claim: an entry
whose `type` is the string `"technical-info"` drives the code into
`RoleNeed(role.name)` where `role` is a `str`, raising `AttributeError`,
and an entry in the documented shape (`type` a dict with id
`"technical-info"`) never matches the comparison and yields `[]`. -/
theorem C2_code_eval :
    ProprietaryRecordPermissions_needs Py.none = .ok [Need.authenticated_user]
    ∧ ProprietaryRecordPermissions_needs (descRecord [strTypeEntry]) = .error .attributeError
    ∧ ProprietaryRecordPermissions_needs (descRecord [curatorEntry]) = .ok [] :=
  ⟨rfl, rfl, rfl⟩

/-- C3 is false as stated: for the record holding exactly one
technical-info entry with description `"<p>Curator</p>"`, `get_roles`
returns `["Curator"]` — the stored case is preserved, not case-folded to
`["curator"]`. -/
theorem C3_counterexample :
    get_roles (descRecord [curatorEntry]) "curator" = .ok ["Curator"]
    ∧ (Except.ok ["Curator"] : Except PyErr (List String)) ≠ .ok ["curator"] :=
  ⟨rfl, by simp⟩

/-- C3 as amended: for every record whose additional descriptions are
well-formed entries among which is a technical-info entry with description
`"<p>Curator</p>"`, `get_roles(record, "curator")` succeeds and its result
contains the string `"Curator"`: the markup is stripped and the comparison
is case-folded, but the returned role keeps the stored case. -/
theorem C3_amended (pre post : List Py)
    (hpre : ∀ e ∈ pre, entryOk e = true) (hpost : ∀ e ∈ post, entryOk e = true) :
    ∃ out, get_roles (descRecord (pre ++ curatorEntry :: post)) "curator" = .ok out
      ∧ "Curator" ∈ out := by
  have hall : ∀ e ∈ pre ++ curatorEntry :: post, entryOk e = true := by
    intro e hmem
    rcases List.mem_append.mp hmem with h | h
    · exact hpre e h
    · rcases List.mem_cons.mp h with h | h
      · rw [h]; rfl
      · exact hpost e h
  have hrec : get_roles (descRecord (pre ++ curatorEntry :: post)) "curator"
      = getRolesLoop stripTags "curator" (pre ++ curatorEntry :: post) [] := rfl
  rw [hrec, getRolesLoop_ok "curator" _ hall []]
  refine ⟨_, rfl, ?_⟩
  have hc : entryContrib "curator" curatorEntry = ["Curator"] := rfl
  simp [List.map_append, List.mem_append, hc]

/-- C3 amended claim, instantiated at the record with exactly the one
curator entry. -/
theorem C3_amended_witness :
    ∃ out, get_roles (descRecord [curatorEntry]) "curator" = .ok out ∧ "Curator" ∈ out :=
  C3_amended [] [] (by intro e h; exact absurd h (List.not_mem_nil e))
    (by intro e h; exact absurd h (List.not_mem_nil e))

/-- C4 is false as stated: on a record holding one description entry with
no `type` field, role extraction raises `AttributeError` (from
`None.get("id")`) instead of skipping the entry, and the error propagates
out of `Curator.needs`. -/
theorem C4_counterexample :
    get_roles (descRecord [noTypeEntry]) "curator" = .error .attributeError
    ∧ Curator.needs (descRecord [noTypeEntry]) = .error .attributeError
    ∧ (Except.error PyErr.attributeError : Except PyErr (List Need)) ≠ .ok [] :=
  ⟨rfl, rfl, by simp⟩

/-- C4 as amended: a description entry lacking `type` makes `get_roles`
raise `AttributeError`, and a technical-info entry lacking `description`
makes it raise `TypeError` (at the `"<p>" in role` test on `None`);
malformed entries are not skipped, and the exception propagates out of the
generator's needs evaluation (`Curator.needs`). -/
theorem C4_amended :
    get_roles (descRecord [noTypeEntry]) "curator" = .error .attributeError
    ∧ get_roles (descRecord [noDescEntry]) "curator" = .error .typeError
    ∧ Curator.needs (descRecord [noTypeEntry]) = .error .attributeError
    ∧ Curator.needs (descRecord [noDescEntry]) = .error .typeError :=
  ⟨rfl, rfl, rfl, rfl⟩

/-- C5 is false as stated: on a description with two opening and two
closing paragraph tags, the source strips ALL occurrences (Python
`str.replace`), extracting the role `"curator"`, whereas the
first-occurrence-only stripping the spec describes would leave
`"<p>curator</p>"` and extract nothing. -/
theorem C5_counterexample :
    get_roles (descRecord [multiTagEntry]) "curator" = .ok ["curator"]
    ∧ get_roles_firstOnly (descRecord [multiTagEntry]) "curator" = .ok []
    ∧ (Except.ok ["curator"] : Except PyErr (List String)) ≠ .ok []
    ∧ stripTags "<p><p>curator</p></p>" = "curator"
    ∧ stripTagsFirstOnly "<p><p>curator</p></p>" = "<p>curator</p>" :=
  ⟨rfl, rfl, by simp, rfl, rfl⟩

/-- C5 as amended: the markup-stripping step removes EVERY occurrence of
the literal substrings of the paragraph tags (left to right,
non-overlapping, as Python `str.replace` does), so a multiply-tagged
description still matches its role class. -/
theorem C5_amended :
    stripTags "<p><p>curator</p></p>" = "curator"
    ∧ pyReplace "<p>a<p>b<p>" "<p>" "" = "ab"
    ∧ get_roles (descRecord [multiTagEntry]) "curator" = .ok ["curator"] :=
  ⟨rfl, rfl, rfl⟩

/-- C6 is false as stated: on a record with no `metadata` key,
`record.get("metadata")` yields `None` and the chained
`.get("additional_descriptions", [])` raises `AttributeError`, rather
than treating the descriptions as empty. -/
theorem C6_counterexample :
    get_roles (Py.dict []) "curator" = .error .attributeError
    ∧ (Except.error PyErr.attributeError : Except PyErr (List String)) ≠ .ok [] :=
  ⟨rfl, by simp⟩

/-- C6 as amended: for every record whose `metadata` value is a dict that
lacks `additional_descriptions`, `get_roles` treats the descriptions as
the empty sequence and returns the empty list; only a record missing
`metadata` itself fails. -/
theorem C6_amended (kvs mkvs : List (String × Py)) (u : String)
    (hm : kvs.lookup "metadata" = some (Py.dict mkvs))
    (ha : mkvs.lookup "additional_descriptions" = none) :
    get_roles (Py.dict kvs) u = .ok [] := by
  simp [get_roles, getRolesWith, pyGet, pyGetD, hm, ha, getRolesLoop,
    Bind.bind, Except.bind]

/-- C6 amended claim, instantiated at a record whose metadata is the empty
dict. -/
theorem C6_amended_witness :
    get_roles (Py.dict [("metadata", Py.dict [])]) "curator" = .ok [] :=
  C6_amended [("metadata", Py.dict [])] [] "curator" rfl rfl

/-- C7: for every record carrying an `access` dict with no entry for the
configured field, `IfRestricted.needs` defaults the value to
`"restricted"` (fail-closed) and returns the `then_` branch's result (its
first generator, invoked with `record=None`), not the `else_` branch's. -/
theorem C7_theorem (field : String) (a : Generator) (ta else_ : List Generator)
    (kvs am : List (String × Py))
    (hacc : kvs.lookup "access" = some (Py.dict am))
    (hf : am.lookup field = none) :
    IfRestricted.needs ⟨field, a :: ta, else_⟩ (Py.dict kvs) = a.needs Py.none := by
  have htr : pyTruthy (Py.dict kvs) = true := by
    cases kvs with
    | nil => simp at hacc
    | cons x r => rfl
  have hv : accessFieldValue (Py.dict kvs) field = .ok (Py.str "restricted") := by
    simp [accessFieldValue, pyGetD, hacc, hf, Bind.bind, Except.bind]
  simp [IfRestricted.needs, htr, hv, pyEq]

/-- C7, instantiated at a record whose `access` dict is empty, with
`AdminSuperUser` heading the `then_` branch. -/
theorem C7_witness :
    IfRestricted.needs ⟨"record", [AdminSuperUser], []⟩ (Py.dict [("access", Py.dict [])])
      = AdminSuperUser.needs Py.none :=
  C7_theorem "record" AdminSuperUser [] [] [("access", Py.dict [])] [] rfl rfl

/-- C8: for every identity, `AdminSuperUser.query_filter` returns the
match-all clause exactly when the identity provides the superuser claim,
and the bare empty list exactly otherwise. -/
theorem C8_theorem (idn : Identity) :
    (AdminSuperUser_query_filter (some idn) = .ok (.q "match_all")
        ↔ Need.superuser_access ∈ idn.provides)
    ∧ (AdminSuperUser_query_filter (some idn) = .ok .emptyList
        ↔ Need.superuser_access ∉ idn.provides) := by
  by_cases h : Need.superuser_access ∈ idn.provides <;>
    simp [AdminSuperUser_query_filter, h]

/-- C8, instantiated at the identity providing exactly the superuser
claim. -/
theorem C8_witness :
    (AdminSuperUser_query_filter (some ⟨[Need.superuser_access]⟩) = .ok (.q "match_all")
        ↔ Need.superuser_access ∈ (⟨[Need.superuser_access]⟩ : Identity).provides)
    ∧ (AdminSuperUser_query_filter (some ⟨[Need.superuser_access]⟩) = .ok .emptyList
        ↔ Need.superuser_access ∉ (⟨[Need.superuser_access]⟩ : Identity).provides) :=
  C8_theorem ⟨[Need.superuser_access]⟩

/-- C9: for every field name and branch lists, `IfRestricted.needs` on the
absent record (`None`) returns the empty list. -/
theorem C9_theorem (field : String) (then_ else_ : List Generator) :
    IfRestricted.needs ⟨field, then_, else_⟩ Py.none = .ok [] := rfl

/-- C10: for every falsy record value (not only `None`), `IfRestricted.needs`
returns the empty list without reading the access mapping or consulting
either branch list (the branch lists here may even be empty, which would
raise `IndexError` if consulted). -/
theorem C10_theorem (field : String) (then_ else_ : List Generator) (record : Py)
    (h : pyTruthy record = false) :
    IfRestricted.needs ⟨field, then_, else_⟩ record = .ok [] := by
  simp [IfRestricted.needs, h]

/-- C10, instantiated at the empty dict, which is falsy but not `None`,
with empty branch lists. -/
theorem C10_witness :
    pyTruthy (Py.dict []) = false
    ∧ IfRestricted.needs ⟨"record", [], []⟩ (Py.dict []) = .ok [] :=
  ⟨rfl, C10_theorem "record" [] [] (Py.dict []) rfl⟩
